import Mathlib

/-!
Verification development for `docker-retag` (`main.go`), a CLI tool that
repoints a mutable tag in a remote container registry to the manifest of a
source image.  The program logic (`retagImage`, `getImageDetails`,
`formatDigest`, `formatTime`) is embedded shallowly below; the external
collaborators (reference parsing, the registry transport, the credential
provider) are modelled as oracles whose per-call outcomes are supplied in an
`Env` record, and — where registry state matters — as an explicit association
list from canonical reference strings to images.
-/

/-- Kind-tagged registry error, modelling the `error` values returned by the
registry client library (`remote.Image`, `crane.Tag`).  The Go program never
inspects an error beyond `err != nil`; the kind tag exists so that theorems
can quantify over, and distinguish, not-found / transient / permanent causes.
The payload is the text that `%v` would render. -/
inductive RegError where
  | notFound (msg : String)
  | transient (msg : String)
  | permanent (msg : String)
deriving DecidableEq

/-- The text `fmt.Fprintf`'s `%v` verb renders for an error value. -/
def RegError.errText : RegError → String
  | .notFound m => m
  | .transient m => m
  | .permanent m => m

/-- Go `time.Time` restricted to the fields the program reads: the broken-down
civil time.  Go's zero time is January 1, year 1, 00:00:00. -/
structure GoTime where
  year : Nat
  month : Nat
  day : Nat
  hour : Nat
  minute : Nat
  second : Nat
deriving DecidableEq

/-- Go `time.Time.IsZero`: the time equals January 1, year 1, 00:00:00. -/
def GoTime.isZero (t : GoTime) : Bool :=
  t.year == 1 && t.month == 1 && t.day == 1 &&
  t.hour == 0 && t.minute == 0 && t.second == 0

/-- Zero-pad a decimal rendering of `n` to width `w`, as Go's time formatter
does for the numeric verbs of a layout string. -/
def zeroPad (w : Nat) (n : Nat) : String :=
  let s := Nat.repr n
  String.mk (List.replicate (w - s.length) '0') ++ s

/-- Go `t.Format "2006-01-02 15:04:05"`: four-digit year, then zero-padded
month, day, hour, minute, second. -/
def GoTime.layoutFormat (t : GoTime) : String :=
  zeroPad 4 t.year ++ "-" ++ zeroPad 2 t.month ++ "-" ++ zeroPad 2 t.day ++ " " ++
  zeroPad 2 t.hour ++ ":" ++ zeroPad 2 t.minute ++ ":" ++ zeroPad 2 t.second

/-- Go `v1.Hash`: a digest with an algorithm part and a hex part. -/
structure Hash where
  algorithm : String
  hex : String
deriving DecidableEq

/-- Go `v1.Hash.String()`: `algorithm ++ ":" ++ hex`. -/
def Hash.toStr (h : Hash) : String := h.algorithm ++ ":" ++ h.hex

/-- The slice of `v1.ConfigFile` the program reads: the creation time
(`configFile.Created.Time`). -/
structure ConfigFile where
  created : GoTime
deriving DecidableEq

/-- A fetched remote image, as observed through the two methods the program
calls.  `digest`/`digestErr` are the value-error pair returned by `Digest()`;
`config` is the pointer returned by `ConfigFile()` (`none` models a nil
pointer) and `configErr` its error. -/
structure Image where
  digest : Hash
  digestErr : Option String
  config : Option ConfigFile
  configErr : Option String
deriving DecidableEq

/-- `getImageDetails` from `main.go`.  It discards both error results
(`digest, _ := img.Digest()` and `configFile, _ := img.ConfigFile()`) and
dereferences `configFile` unconditionally; `none` here models the nil-pointer
dereference panic that occurs when `ConfigFile()` returned a nil pointer. -/
def getImageDetails (img : Image) : Option (Hash × GoTime) :=
  match img.config with
  | none => none
  | some configFile => some (img.digest, configFile.created)

/-- The result of `name.ParseReference`: `context` is the canonical string of
`ref.Context()` (registry host plus repository path) and `refString` the
canonical string of the whole reference. -/
structure ParsedRef where
  context : String
  refString : String
deriving DecidableEq

/-- Outcomes of the external calls the program makes, in program order:
`name.ParseReference(sourceImageStr)`, `remote.Image(sourceRef)`,
`remote.Image(newRef)`, `crane.Tag(sourceImageStr, newTag)` (for the last,
`none` means the write succeeded).  Each field is consulted only if control
reaches the corresponding call. -/
structure Env where
  parseResult : Except String ParsedRef
  sourceImage : Except RegError Image
  destImage : Except RegError Image
  tagResult : Option RegError

/-- A registry operation performed by the program: a manifest fetch of a
reference, or the tag-pointing write `crane.Tag(src, tag)`. -/
inductive RegCall where
  | fetch (ref : String)
  | tagWrite (src : String) (tag : String)
deriving DecidableEq

/-- Whether a registry call is the tag-pointing write. -/
def RegCall.isWrite : RegCall → Bool
  | .tagWrite _ _ => true
  | .fetch _ => false

/-- How the process ended: `os.Exit`/normal return with a code, or a runtime
panic (nil-pointer dereference). -/
inductive Outcome where
  | exited (code : Nat)
  | panicked
deriving DecidableEq

/-- Observable result of one invocation: the lines printed to the standard
and error streams, how the process ended, and the trace of registry
operations issued, in order. -/
structure RunResult where
  stdout : List String
  stderr : List String
  outcome : Outcome
  calls : List RegCall
deriving DecidableEq

/-- `formatDigest` from `main.go`: shorten a digest string to its first 12
characters when it is longer than 12. -/
def formatDigest (d : Hash) : String :=
  let digestStr := d.toStr
  if digestStr.length > 12 then digestStr.take 12 else digestStr

/-- `formatTime` from `main.go`: the sentinel `"unknown"` for the zero time,
otherwise the `"2006-01-02 15:04:05"` layout rendering. -/
def formatTime (t : GoTime) : String :=
  if t.isZero then "unknown" else t.layoutFormat

/-- The apostrophe character, as a string. -/
def apos : String := String.singleton (Char.ofNat 39)

/-- A string wrapped in apostrophes, as the `%s` arguments quoted in the
program's format strings. -/
def quoted (s : String) : String := apos ++ s ++ apos

/-- Message of step 0 failure: invalid source image reference. -/
def invalidRefMsg (s e : String) : String :=
  "[FAIL] Error: Invalid source image reference " ++ quoted s ++ ": " ++ e ++ "\n"

/-- Message of step 1 failure: source image not found or inaccessible. -/
def sourceFailMsg (s e : String) : String :=
  "[FAIL] Error: Source image " ++ quoted s ++ " not found or inaccessible: " ++ e ++ "\n"

/-- Step 3 no-op message: the tag already points to the correct image. -/
def noopMsg (t : String) (ts : GoTime) (d : Hash) : String :=
  "[OK] Tag " ++ quoted t ++ " already points to the correct image.\n\tSource: " ++
  formatTime ts ++ " " ++ formatDigest d ++ "\n"

/-- Step 4 dry-run message when the destination tag exists. -/
def dryRunOverwriteMsg (t : String) (sts : GoTime) (sd : Hash) (dts : GoTime) (dd : Hash) :
    String :=
  "[DRY-RUN] Would point tag " ++ quoted t ++ " to new image.\n\tSource: " ++
  formatTime sts ++ " " ++ formatDigest sd ++ "\n\tTarget: " ++
  formatTime dts ++ " " ++ formatDigest dd ++ "\n"

/-- Step 4 dry-run message when the destination tag does not exist. -/
def dryRunCreateMsg (t : String) (sts : GoTime) (sd : Hash) : String :=
  "[DRY-RUN] Would create tag " ++ quoted t ++ " pointing to image.\n\tSource: " ++
  formatTime sts ++ " " ++ formatDigest sd ++ "\n"

/-- Step 5 failure message: the tag write failed. -/
def tagFailMsg (t e : String) : String :=
  "[FAIL] Error: Failed to point tag " ++ quoted t ++ " to new image: " ++ e ++ "\n"

/-- Step 6 success message; `fromMsg` is the Target line, present exactly when
the destination fetch had succeeded. -/
def successMsg (t : String) (sts : GoTime) (sd : Hash) (fromMsg : String) : String :=
  "[OK] Successfully pointed tag " ++ quoted t ++ " to new image.\n\tSource: " ++
  formatTime sts ++ " " ++ formatDigest sd ++ fromMsg ++ "\n"

/-- The Target line of the step 6 success message. -/
def targetMsg (dts : GoTime) (dd : Hash) : String :=
  "\n\tTarget: " ++ formatTime dts ++ " " ++ formatDigest dd

/-- `retagImage` from `main.go`, as a function of the dry-run flag, the two
positional arguments, and the outcomes of the external calls.  Control flow,
call order, messages and exit codes follow the source line by line:
parse the source reference (fatal on error, no registry contact); fetch the
source image (fatal on error); read its details (panics on a nil config);
fetch the destination tag (any error means "may not exist"); no-op when both
digest strings are equal; in dry-run mode report a preview and stop;
otherwise issue `crane.Tag(sourceImageStr, newTag)` and report. -/
def retagImage (dryRun : Bool) (sourceImageStr newTag : String) (env : Env) : RunResult :=
  match env.parseResult with
  | .error e =>
      { stdout := [], stderr := [invalidRefMsg sourceImageStr e],
        outcome := .exited 1, calls := [] }
  | .ok sourceRef =>
      let newRefStr := sourceRef.context ++ ":" ++ newTag
      match env.sourceImage with
      | .error e =>
          { stdout := [], stderr := [sourceFailMsg sourceImageStr e.errText],
            outcome := .exited 1, calls := [.fetch sourceRef.refString] }
      | .ok sourceImg =>
          match getImageDetails sourceImg with
          | none =>
              { stdout := [], stderr := [], outcome := .panicked,
                calls := [.fetch sourceRef.refString] }
          | some (sourceDigest, sourceTimestamp) =>
              match env.destImage with
              | .ok destImg =>
                  match getImageDetails destImg with
                  | none =>
                      { stdout := [], stderr := [], outcome := .panicked,
                        calls := [.fetch sourceRef.refString, .fetch newRefStr] }
                  | some (destDigest, destTimestamp) =>
                      if sourceDigest.toStr = destDigest.toStr then
                        { stdout := [noopMsg newTag sourceTimestamp sourceDigest],
                          stderr := [], outcome := .exited 0,
                          calls := [.fetch sourceRef.refString, .fetch newRefStr] }
                      else if dryRun then
                        { stdout := [dryRunOverwriteMsg newTag sourceTimestamp sourceDigest
                                      destTimestamp destDigest],
                          stderr := [], outcome := .exited 0,
                          calls := [.fetch sourceRef.refString, .fetch newRefStr] }
                      else
                        match env.tagResult with
                        | some e =>
                            { stdout := [], stderr := [tagFailMsg newTag e.errText],
                              outcome := .exited 1,
                              calls := [.fetch sourceRef.refString, .fetch newRefStr,
                                        .tagWrite sourceImageStr newTag] }
                        | none =>
                            { stdout := [successMsg newTag sourceTimestamp sourceDigest
                                          (targetMsg destTimestamp destDigest)],
                              stderr := [], outcome := .exited 0,
                              calls := [.fetch sourceRef.refString, .fetch newRefStr,
                                        .tagWrite sourceImageStr newTag] }
              | .error _ =>
                  if dryRun then
                    { stdout := [dryRunCreateMsg newTag sourceTimestamp sourceDigest],
                      stderr := [], outcome := .exited 0,
                      calls := [.fetch sourceRef.refString, .fetch newRefStr] }
                  else
                    match env.tagResult with
                    | some e =>
                        { stdout := [], stderr := [tagFailMsg newTag e.errText],
                          outcome := .exited 1,
                          calls := [.fetch sourceRef.refString, .fetch newRefStr,
                                    .tagWrite sourceImageStr newTag] }
                    | none =>
                        { stdout := [successMsg newTag sourceTimestamp sourceDigest ""],
                          stderr := [], outcome := .exited 0,
                          calls := [.fetch sourceRef.refString, .fetch newRefStr,
                                    .tagWrite sourceImageStr newTag] }

/-- Whether a run issued the tag-pointing write. -/
def writeOccurs (r : RunResult) : Bool := r.calls.any RegCall.isWrite

/-- The five decision values of spec section 4.4. -/
inductive RetagDecision where
  | noOpAlreadyCorrect
  | wouldCreate
  | wouldOverwrite
  | create
  | overwrite
deriving DecidableEq

/-- The Idempotency Evaluator exactly as worded in spec section 4.4, for
comparison with the branch structure of `retagImage`: the decision is a
function of the dry-run flag, the source digest string, and the destination
digest string when the destination was found (`none` when it was not). -/
def specDecide (dryRun : Bool) (sourceDigest : String) (destDigest : Option String) :
    RetagDecision :=
  match destDigest with
  | some dd =>
      if sourceDigest = dd then .noOpAlreadyCorrect
      else if dryRun then .wouldOverwrite else .overwrite
  | none => if dryRun then .wouldCreate else .create

/-- The destination digest string observed by a run: the digest of the
fetched destination image when the fetch succeeded and its details were
readable, `none` when the fetch failed. -/
def destDigestOf (env : Env) : Option String :=
  match env.destImage with
  | .ok di => (getImageDetails di).map (fun p => p.1.toStr)
  | .error _ => none

/-- Association-list model of the external registry state (spec section 6):
a mapping from canonical reference strings to the images they reference. -/
abbrev Registry := List (String × Image)

/-- Look a reference string up in the registry. -/
def regFind : Registry → String → Option Image
  | [], _ => none
  | (k, v) :: rest, ref => if k = ref then some v else regFind rest ref

/-- Point a reference string at an image, replacing any previous mapping. -/
def regSet : Registry → String → Image → Registry
  | [], ref, img => [(ref, img)]
  | (k, v) :: rest, ref, img =>
      if k = ref then (ref, img) :: rest else (k, v) :: regSet rest ref img

/-- Model of the registry transport behind `remote.Image` against a registry
snapshot: a mapped reference resolves to its image, an unmapped one yields
the registry's manifest-unknown error. -/
def remoteImage (reg : Registry) (refStr : String) : Except RegError Image :=
  match regFind reg refStr with
  | some img => .ok img
  | none => .error (.notFound ("MANIFEST_UNKNOWN: " ++ refStr))

/-- Model of `crane.Tag src tag`: the registry re-resolves the source
reference string at write time and points the destination reference at
whatever manifest the source currently references. -/
def craneTag (reg : Registry) (sourceStr destRefStr : String) : Except RegError Registry :=
  match regFind reg sourceStr with
  | some img => .ok (regSet reg destRefStr img)
  | none => .error (.notFound ("MANIFEST_UNKNOWN: " ++ sourceStr))

/-- One invocation of the program against a consistent registry snapshot
`reg`: the fetch outcomes and the write outcome are those the registry model
gives for the parsed references, and the returned registry is `reg` updated
by the tag write when the run issued one. -/
def runOnRegistry (dryRun : Bool) (s t : String) (pr : Except String ParsedRef)
    (reg : Registry) : RunResult × Registry :=
  match pr with
  | .error e =>
      (retagImage dryRun s t
        { parseResult := .error e, sourceImage := .error (.notFound ""),
          destImage := .error (.notFound ""), tagResult := none }, reg)
  | .ok r =>
      let destStr := r.context ++ ":" ++ t
      let env : Env :=
        { parseResult := .ok r
          sourceImage := remoteImage reg r.refString
          destImage := remoteImage reg destStr
          tagResult :=
            match craneTag reg r.refString destStr with
            | .ok _ => none
            | .error e => some e }
      let res := retagImage dryRun s t env
      let reg2 :=
        if writeOccurs res then
          match craneTag reg r.refString destStr with
          | .ok next => next
          | .error _ => reg
        else reg
      (res, reg2)

/-- The registry state after one invocation. -/
def registryStep (dryRun : Bool) (s t : String) (pr : Except String ParsedRef)
    (reg : Registry) : Registry :=
  (runOnRegistry dryRun s t pr reg).2

/-- Sample digest `a`. -/
def hashA : Hash :=
  { algorithm := "sha256"
    hex := "aaaa111122223333aaaa111122223333aaaa111122223333aaaa111122223333" }

/-- Sample digest `b`, distinct from `hashA`. -/
def hashB : Hash :=
  { algorithm := "sha256"
    hex := "bbbb111122223333bbbb111122223333bbbb111122223333bbbb111122223333" }

/-- Sample creation time of the sample source image. -/
def timeA : GoTime := { year := 2024, month := 5, day := 17, hour := 10, minute := 30, second := 0 }

/-- Sample creation time of the sample destination image. -/
def timeB : GoTime := { year := 2023, month := 1, day := 2, hour := 3, minute := 4, second := 5 }

/-- Sample image carrying digest `a`. -/
def imgA : Image :=
  { digest := hashA, digestErr := none, config := some { created := timeA }, configErr := none }

/-- Sample image carrying digest `b`. -/
def imgB : Image :=
  { digest := hashB, digestErr := none, config := some { created := timeB }, configErr := none }

/-- Image with digest `a` but a different creation time than `imgA`. -/
def imgA2 : Image :=
  { digest := hashA, digestErr := none, config := some { created := timeB }, configErr := none }

/-- Sample parsed source reference. -/
def refApp : ParsedRef := { context := "example.com/app", refString := "example.com/app:build-1" }

/-- Environment of an invocation whose source string fails to parse. -/
def envParseErr : Env :=
  { parseResult := .error "could not parse reference", sourceImage := .error (.notFound ""),
    destImage := .error (.notFound ""), tagResult := none }

/-- Environment whose source fetch fails with a transient registry error. -/
def envTransientSource : Env :=
  { parseResult := .ok refApp, sourceImage := .error (.transient "registry timeout"),
    destImage := .error (.notFound ""), tagResult := none }

/-- Environment whose destination fetch fails with a permanent auth error. -/
def envDestPermanent : Env :=
  { parseResult := .ok refApp, sourceImage := .ok imgA,
    destImage := .error (.permanent "UNAUTHORIZED: authentication required"),
    tagResult := none }

/-- Environment whose destination fetch fails with the registry's explicit
manifest-unknown (not found) response. -/
def envDestNotFound : Env :=
  { parseResult := .ok refApp, sourceImage := .ok imgA,
    destImage := .error (.notFound "MANIFEST_UNKNOWN"),
    tagResult := none }

/-- Environment of a plain creation: source found, destination tag absent,
write succeeding. -/
def envCreate : Env :=
  { parseResult := .ok refApp, sourceImage := .ok imgA,
    destImage := .error (.notFound "MANIFEST_UNKNOWN"), tagResult := none }

/-- Like `envCreate` but the source image carries a different creation
timestamp (same digest). -/
def envCreateAltTime : Env :=
  { parseResult := .ok refApp, sourceImage := .ok imgA2,
    destImage := .error (.notFound "MANIFEST_UNKNOWN"), tagResult := none }

/-- Environment of the read phase of a race scenario: the source fetch
observed digest `a`, the destination tag is absent, the write succeeds. -/
def envRace : Env :=
  { parseResult := .ok refApp, sourceImage := .ok imgA,
    destImage := .error (.notFound "MANIFEST_UNKNOWN"), tagResult := none }

/-- Registry at write time in the race scenario: the source tag has been
moved to the image with digest `b` after the read. -/
def regMoved : Registry := [("example.com/app:build-1", imgB)]

/-- Registry in which the destination tag already points at the source
digest (with differing creation timestamps). -/
def regNoop : Registry :=
  [("example.com/app:build-1", imgA), ("example.com/app:prod", imgA2)]

theorem zeroPad_length (w n : Nat) : w ≤ (zeroPad w n).length := by
  unfold zeroPad
  simp [String.length_append]
  omega

theorem layoutFormat_length (t : GoTime) : 19 ≤ (GoTime.layoutFormat t).length := by
  unfold GoTime.layoutFormat
  have h1 := zeroPad_length 4 t.year
  have h2 := zeroPad_length 2 t.month
  have h3 := zeroPad_length 2 t.day
  have h4 := zeroPad_length 2 t.hour
  have h5 := zeroPad_length 2 t.minute
  have h6 := zeroPad_length 2 t.second
  have e1 : ("-").length = 1 := rfl
  have e2 : (" ").length = 1 := rfl
  have e3 : (":").length = 1 := rfl
  simp [String.length_append]
  omega

/-- Claim C8: `formatDigest` returns exactly the first 12 characters of a
digest string longer than 12 characters and the whole string otherwise; and
`formatTime` returns the sentinel `"unknown"` exactly when the timestamp is
the zero time, and the layout-formatted human-readable string otherwise. -/
theorem format_helpers_spec :
    (∀ h : Hash, 12 < (Hash.toStr h).length → formatDigest h = (Hash.toStr h).take 12) ∧
    (∀ h : Hash, ¬ 12 < (Hash.toStr h).length → formatDigest h = Hash.toStr h) ∧
    (∀ t : GoTime, formatTime t = "unknown" ↔ t.isZero = true) ∧
    (∀ t : GoTime, t.isZero = false → formatTime t = t.layoutFormat) := by
  refine ⟨?_, ?_, ?_, ?_⟩
  · intro h hl
    simp [formatDigest, hl]
  · intro h hl
    simp [formatDigest, hl]
  · intro t
    constructor
    · intro hEq
      by_cases hz : t.isZero
      · exact hz
      · exfalso
        have hfmt : formatTime t = t.layoutFormat := by simp [formatTime, hz]
        have hlen := layoutFormat_length t
        rw [← hfmt, hEq] at hlen
        have : ("unknown").length = 7 := rfl
        omega
    · intro hz
      simp [formatTime, hz]
  · intro t hz
    simp [formatTime, hz]

/-- Witness for C8 at a concrete long digest and a concrete nonzero time. -/
theorem format_helpers_spec_witness :
    formatDigest hashA = (Hash.toStr hashA).take 12 ∧
    formatTime timeA = GoTime.layoutFormat timeA :=
  ⟨format_helpers_spec.1 hashA (by decide),
   format_helpers_spec.2.2.2 timeA (by decide)⟩

/-- Claim C6: when the source image string cannot be parsed as a reference,
the program prints a single [FAIL]-marked diagnostic naming the offending
reference string on the error stream, exits with code 1, and issues no
registry call of any kind. -/
theorem invalid_ref_no_registry_contact
    (d : Bool) (s t : String) (env : Env) (e : String)
    (h : env.parseResult = .error e) :
    retagImage d s t env =
      { stdout := [], stderr := [invalidRefMsg s e], outcome := .exited 1, calls := [] } ∧
    (∃ pre post : String, invalidRefMsg s e = pre ++ s ++ post) ∧
    (∃ rest : String, invalidRefMsg s e = "[FAIL] " ++ rest) := by
  refine ⟨?_, ?_, ?_⟩
  · unfold retagImage
    rw [h]
  · refine ⟨"[FAIL] Error: Invalid source image reference " ++ apos,
      apos ++ ": " ++ e ++ "\n", ?_⟩
    simp [invalidRefMsg, quoted, String.append_assoc]
  · refine ⟨"Error: Invalid source image reference " ++ quoted s ++ ": " ++ e ++ "\n", ?_⟩
    simp [invalidRefMsg, ← String.append_assoc]

/-- Witness for C6 at a concrete malformed invocation. -/
theorem invalid_ref_no_registry_contact_witness :
    retagImage false "???bad" "prod" envParseErr =
      { stdout := [], stderr := [invalidRefMsg "???bad" "could not parse reference"],
        outcome := .exited 1, calls := [] } :=
  (invalid_ref_no_registry_contact false "???bad" "prod" envParseErr
    "could not parse reference" rfl).1

/-- Claim C10: `getImageDetails` ignores the error results of `Digest()` and
`ConfigFile()`; when the config pointer is nil the unconditional dereference
panics (modelled as `none`), and when it is non-nil the function totally
returns the digest value and the creation time; the panic is reachable in a
full run whose source image fetch succeeds but whose config fetch fails. -/
theorem getImageDetails_nil_config_spec :
    (∀ img : Image, img.config = none → getImageDetails img = none) ∧
    (∀ (img : Image) (cf : ConfigFile), img.config = some cf →
        getImageDetails img = some (img.digest, cf.created)) ∧
    (∀ (dg : Hash) (de1 de2 : Option String) (c : Option ConfigFile) (ce1 ce2 : Option String),
        getImageDetails { digest := dg, digestErr := de1, config := c, configErr := ce1 } =
        getImageDetails { digest := dg, digestErr := de2, config := c, configErr := ce2 }) ∧
    ((retagImage false "example.com/app:build-1" "prod"
        { parseResult := .ok refApp,
          sourceImage := .ok { digest := hashA, digestErr := none, config := none,
                               configErr := some "fetching config failed" },
          destImage := .error (.notFound "MANIFEST_UNKNOWN"),
          tagResult := none }).outcome = .panicked) := by
  refine ⟨?_, ?_, ?_, ?_⟩
  · intro img h
    simp [getImageDetails, h]
  · intro img cf h
    simp [getImageDetails, h]
  · intro dg de1 de2 c ce1 ce2
    cases c <;> simp [getImageDetails]
  · rfl

/-- Witness for C10: a concrete image whose config pointer is nil. -/
theorem getImageDetails_nil_config_spec_witness :
    getImageDetails
      { digest := hashA, digestErr := none, config := none, configErr := some "boom" } =
      none :=
  getImageDetails_nil_config_spec.1 _ rfl

/-- Claim C2 evaluation: the program performs no retries at all — a transient
failure fetching the source is surfaced immediately after a single fetch
call with exit code 1, and no run ever issues more than one write or more
than two fetches, so no registry operation is ever attempted twice. -/
theorem no_retry_single_attempt (d : Bool) (s t : String) (env : Env) :
    (∀ (r : ParsedRef) (m : String), env.parseResult = .ok r →
        env.sourceImage = .error (.transient m) →
        retagImage d s t env =
          { stdout := [], stderr := [sourceFailMsg s m], outcome := .exited 1,
            calls := [.fetch r.refString] }) ∧
    ((retagImage d s t env).calls.countP RegCall.isWrite ≤ 1 ∧
     (retagImage d s t env).calls.countP (fun c => !c.isWrite) ≤ 2) := by
  obtain ⟨pr, si, di, tr⟩ := env
  constructor
  · intro r m hp hs
    simp only at hp hs
    subst hp
    subst hs
    rfl
  · rcases pr with e | r
    · simp [retagImage, List.countP_nil]
    · rcases si with e | simg
      · simp [retagImage, List.countP_cons, List.countP_nil, RegCall.isWrite]
      · rcases hgi : getImageDetails simg with _ | ⟨sd, sts⟩
        · simp [retagImage, hgi, List.countP_cons, List.countP_nil, RegCall.isWrite]
        · rcases di with e | dimg
          · rcases tr with _ | e2 <;> cases d <;>
              simp [retagImage, hgi, List.countP_cons, List.countP_nil, RegCall.isWrite]
          · rcases hgd : getImageDetails dimg with _ | ⟨dd, dts⟩
            · simp [retagImage, hgi, hgd, List.countP_cons, List.countP_nil, RegCall.isWrite]
            · by_cases hde : sd.toStr = dd.toStr
              · simp [retagImage, hgi, hgd, hde, List.countP_cons, List.countP_nil,
                  RegCall.isWrite]
              · rcases tr with _ | e2 <;> cases d <;>
                  simp [retagImage, hgi, hgd, hde, List.countP_cons, List.countP_nil,
                    RegCall.isWrite]

/-- Witness for C2 at a concrete transiently failing source fetch. -/
theorem no_retry_single_attempt_witness :
    retagImage false "example.com/app:build-1" "prod" envTransientSource =
      { stdout := [],
        stderr := [sourceFailMsg "example.com/app:build-1" "registry timeout"],
        outcome := .exited 1, calls := [.fetch "example.com/app:build-1"] } :=
  (no_retry_single_attempt false "example.com/app:build-1" "prod" envTransientSource).1
    refApp "registry timeout" rfl rfl

/-- Counterexample to claim C3 as stated: a permanent authentication failure
fetching the destination is given exactly the not-found treatment — the run
is identical, call for call and byte for byte, to the run whose destination
fetch returned the registry's explicit manifest-unknown response; both
proceed to creation, issue the write and exit successfully. -/
theorem dest_error_classification_counterexample :
    retagImage false "example.com/app:build-1" "prod" envDestPermanent =
      retagImage false "example.com/app:build-1" "prod" envDestNotFound ∧
    writeOccurs (retagImage false "example.com/app:build-1" "prod" envDestPermanent) = true ∧
    (retagImage false "example.com/app:build-1" "prod" envDestPermanent).outcome =
      .exited 0 := by
  refine ⟨rfl, rfl, rfl⟩

/-- Claim C3 amended: the program does not classify fetch errors.  Any two
failures fetching the destination — not-found, transient or permanent alike —
produce byte-identical runs that treat the destination as absent; when the
write succeeds and dry-run is off such a run proceeds to creation and exits
successfully; and any failure fetching the source, of whatever kind, is
fatal with exit code 1 and no further registry contact. -/
theorem fetch_error_handling_uniform (d : Bool) (s t : String) (env : Env) :
    (∀ e e2 : RegError,
        retagImage d s t { env with destImage := .error e } =
        retagImage d s t { env with destImage := .error e2 }) ∧
    (∀ (r : ParsedRef) (si : Image) (sd : Hash) (sts : GoTime) (e : RegError),
        env.parseResult = .ok r → env.sourceImage = .ok si →
        getImageDetails si = some (sd, sts) → env.destImage = .error e →
        env.tagResult = none → d = false →
        writeOccurs (retagImage d s t env) = true ∧
        (retagImage d s t env).outcome = .exited 0) ∧
    (∀ (r : ParsedRef) (e : RegError), env.parseResult = .ok r →
        env.sourceImage = .error e →
        retagImage d s t env =
          { stdout := [], stderr := [sourceFailMsg s e.errText], outcome := .exited 1,
            calls := [.fetch r.refString] }) := by
  obtain ⟨pr, si, di, tr⟩ := env
  refine ⟨?_, ?_, ?_⟩
  · intro e e2
    rcases pr with pe | r
    · rfl
    · rcases si with se | simg
      · rfl
      · rcases hgi : getImageDetails simg with _ | ⟨sd, sts⟩ <;>
          cases d <;> rcases tr with _ | te <;>
            simp [retagImage, hgi]
  · intro r simg sd sts e hp hs hgi hd ht hdry
    simp only at hp hs hd ht
    subst hp; subst hs; subst hd; subst ht; subst hdry
    simp [retagImage, hgi, writeOccurs, RegCall.isWrite]
  · intro r e hp hs
    simp only at hp hs
    subst hp; subst hs
    rfl

/-- Witness for the amended C3 at a concrete permanent destination failure. -/
theorem fetch_error_handling_uniform_witness :
    writeOccurs (retagImage false "example.com/app:build-1" "prod" envDestPermanent) = true ∧
    (retagImage false "example.com/app:build-1" "prod" envDestPermanent).outcome =
      .exited 0 :=
  (fetch_error_handling_uniform false "example.com/app:build-1" "prod" envDestPermanent).2.1
    refApp imgA hashA timeA (.permanent "UNAUTHORIZED: authentication required")
    rfl rfl rfl rfl rfl rfl

/-- Claim C5: an invocation that fails before reaching the tag-write step —
invalid source reference, or a failed source fetch — issues no registry
write at all, exits with code 1, and in the registry model leaves the
registry (hence the destination tag's mapping) untouched. -/
theorem fail_before_write_no_mutation
    (d : Bool) (s t : String) (env : Env) (pr : Except String ParsedRef) (reg : Registry) :
    (∀ e : String, env.parseResult = .error e →
        writeOccurs (retagImage d s t env) = false ∧
        (retagImage d s t env).calls = [] ∧
        (retagImage d s t env).outcome = .exited 1) ∧
    (∀ (r : ParsedRef) (e : RegError), env.parseResult = .ok r →
        env.sourceImage = .error e →
        writeOccurs (retagImage d s t env) = false ∧
        (retagImage d s t env).calls = [.fetch r.refString] ∧
        (retagImage d s t env).outcome = .exited 1) ∧
    (∀ e : String, pr = .error e → registryStep d s t pr reg = reg) ∧
    (∀ r : ParsedRef, pr = .ok r → regFind reg r.refString = none →
        registryStep d s t pr reg = reg) := by
  refine ⟨?_, ?_, ?_, ?_⟩
  · intro e hp
    obtain ⟨p2, si, di, tr⟩ := env
    simp only at hp
    subst hp
    simp [retagImage, writeOccurs]
  · intro r e hp hs
    obtain ⟨p2, si, di, tr⟩ := env
    simp only at hp hs
    subst hp; subst hs
    simp [retagImage, writeOccurs, RegCall.isWrite]
  · intro e hpr
    subst hpr
    simp [registryStep, runOnRegistry, retagImage, writeOccurs]
  · intro r hpr hfind
    subst hpr
    simp [registryStep, runOnRegistry, retagImage, writeOccurs, remoteImage, hfind,
      RegCall.isWrite]

/-- Witness for C5: a concrete run whose source tag is absent from the
registry leaves the registry unchanged. -/
theorem fail_before_write_no_mutation_witness :
    registryStep false "example.com/app:build-1" "prod" (.ok refApp) ([] : Registry) =
      ([] : Registry) :=
  (fail_before_write_no_mutation false "example.com/app:build-1" "prod" envParseErr
    (.ok refApp) ([] : Registry)).2.2.2 refApp rfl rfl

/-- Claim C4: in any run that reaches the decision point, the tag write is
issued if and only if the spec decision computed from the observed digest
strings is Create or Overwrite — in particular never for NoOpAlreadyCorrect —
and with dry-run set no write call occurs in any environment whatsoever. -/
theorem write_iff_create_or_overwrite
    (d : Bool) (s t : String) (env : Env) (r : ParsedRef) (si : Image)
    (sd : Hash) (sts : GoTime)
    (hp : env.parseResult = .ok r) (hs : env.sourceImage = .ok si)
    (hgd : getImageDetails si = some (sd, sts))
    (hdd : ∀ di : Image, env.destImage = .ok di → (getImageDetails di).isSome = true) :
    (writeOccurs (retagImage d s t env) = true ↔
      (specDecide d sd.toStr (destDigestOf env) = .create ∨
       specDecide d sd.toStr (destDigestOf env) = .overwrite)) ∧
    (∀ (s2 t2 : String) (env2 : Env), writeOccurs (retagImage true s2 t2 env2) = false) := by
  constructor
  · obtain ⟨pr, si2, di, tr⟩ := env
    simp only at hp hs hdd
    subst hp; subst hs
    rcases di with e | dimg
    · cases d <;> rcases tr with _ | te <;>
        simp [retagImage, hgd, destDigestOf, specDecide, writeOccurs, RegCall.isWrite]
    · have hsome := hdd dimg rfl
      rcases hgd2 : getImageDetails dimg with _ | ⟨dd, dts⟩
      · rw [hgd2] at hsome
        simp at hsome
      · by_cases hde : sd.toStr = dd.toStr
        · simp [retagImage, hgd, hgd2, hde, destDigestOf, specDecide, writeOccurs,
            RegCall.isWrite]
        · cases d <;> rcases tr with _ | te <;>
            simp [retagImage, hgd, hgd2, hde, destDigestOf, specDecide, writeOccurs,
              RegCall.isWrite]
  · intro s2 t2 env2
    obtain ⟨pr, si2, di, tr⟩ := env2
    rcases pr with pe | r2
    · simp [retagImage, writeOccurs]
    · rcases si2 with se | simg
      · simp [retagImage, writeOccurs, RegCall.isWrite]
      · rcases hgi : getImageDetails simg with _ | ⟨sd2, sts2⟩
        · simp [retagImage, hgi, writeOccurs, RegCall.isWrite]
        · rcases di with e | dimg
          · simp [retagImage, hgi, writeOccurs, RegCall.isWrite]
          · rcases hgd2 : getImageDetails dimg with _ | ⟨dd, dts⟩
            · simp [retagImage, hgi, hgd2, writeOccurs, RegCall.isWrite]
            · by_cases hde : sd2.toStr = dd.toStr <;>
                simp [retagImage, hgi, hgd2, hde, writeOccurs, RegCall.isWrite]

/-- Witness for C4: a concrete creation run in which the write occurs and the
decision is Create. -/
theorem write_iff_create_or_overwrite_witness :
    writeOccurs (retagImage false "example.com/app:build-1" "prod" envCreate) = true :=
  (write_iff_create_or_overwrite false "example.com/app:build-1" "prod" envCreate refApp
      imgA hashA timeA rfl rfl rfl
      (by intro di h; simp [envCreate] at h)).1.mpr
    (Or.inl rfl)

/-- Claim C7: the retag decision depends only on the canonical digest strings
of source and destination.  Two invocations whose fetched source digest
strings agree and whose destination outcomes agree on digest strings — with
arbitrary differing creation timestamps, reference strings and tag names —
yield the same spec decision, the same write behaviour and the same process
outcome. -/
theorem decision_depends_only_on_digests
    (d : Bool) (s s2 t t2 : String) (env env2 : Env)
    (r r2 : ParsedRef) (si si2 : Image) (sd sd2 : Hash) (sts sts2 : GoTime)
    (hp : env.parseResult = .ok r) (hp2 : env2.parseResult = .ok r2)
    (hs : env.sourceImage = .ok si) (hs2 : env2.sourceImage = .ok si2)
    (hgd : getImageDetails si = some (sd, sts))
    (hgd2 : getImageDetails si2 = some (sd2, sts2))
    (hsd : sd.toStr = sd2.toStr)
    (hdest : (∃ (di di2 : Image) (dd dd2 : Hash) (dts dts2 : GoTime),
                env.destImage = .ok di ∧ env2.destImage = .ok di2 ∧
                getImageDetails di = some (dd, dts) ∧
                getImageDetails di2 = some (dd2, dts2) ∧ dd.toStr = dd2.toStr) ∨
             (∃ e e2 : RegError, env.destImage = .error e ∧ env2.destImage = .error e2))
    (ht : env.tagResult.isNone = env2.tagResult.isNone) :
    specDecide d sd.toStr (destDigestOf env) = specDecide d sd2.toStr (destDigestOf env2) ∧
    writeOccurs (retagImage d s t env) = writeOccurs (retagImage d s2 t2 env2) ∧
    (retagImage d s t env).outcome = (retagImage d s2 t2 env2).outcome := by
  obtain ⟨pr, sia, dia, tra⟩ := env
  obtain ⟨pr2, sia2, dia2, tra2⟩ := env2
  simp only at hp hp2 hs hs2 hdest ht
  subst hp; subst hp2; subst hs; subst hs2
  rcases hdest with ⟨di, di2, dd, dd2, dts, dts2, hd, hd2, hgdi, hgdi2, hdd⟩ |
    ⟨e, e2, hd, hd2⟩
  · subst hd; subst hd2
    by_cases hde : sd.toStr = dd.toStr
    · have hde2 : sd2.toStr = dd2.toStr := by rw [← hsd, ← hdd]; exact hde
      simp [retagImage, destDigestOf, specDecide, hgd, hgd2, hgdi, hgdi2, hde, hde2,
        hsd, hdd, writeOccurs, RegCall.isWrite]
    · have hde2 : ¬ sd2.toStr = dd2.toStr := by rw [← hsd, ← hdd]; exact hde
      cases d
      · rcases tra with _ | te <;> rcases tra2 with _ | te2 <;> simp at ht <;>
          simp [retagImage, destDigestOf, specDecide, hgd, hgd2, hgdi, hgdi2, hde, hde2,
            hsd, hdd, writeOccurs, RegCall.isWrite]
      · simp [retagImage, destDigestOf, specDecide, hgd, hgd2, hgdi, hgdi2, hde, hde2,
          hsd, hdd, writeOccurs, RegCall.isWrite]
  · subst hd; subst hd2
    cases d
    · rcases tra with _ | te <;> rcases tra2 with _ | te2 <;> simp at ht <;>
        simp [retagImage, destDigestOf, specDecide, hgd, hgd2, writeOccurs, RegCall.isWrite]
    · simp [retagImage, destDigestOf, specDecide, hgd, hgd2, writeOccurs, RegCall.isWrite]

/-- Witness for C7: two concrete runs whose images share digest strings but
differ in creation timestamps and tag names decide identically. -/
theorem decision_depends_only_on_digests_witness :
    writeOccurs (retagImage false "example.com/app:build-1" "prod" envCreateAltTime) =
      writeOccurs (retagImage false "example.com/app:build-2" "staging" envCreate) :=
  (decision_depends_only_on_digests false "example.com/app:build-1" "example.com/app:build-2"
      "prod" "staging" envCreateAltTime envCreate refApp refApp imgA2 imgA hashA hashA
      timeB timeA rfl rfl rfl rfl rfl rfl rfl
      (Or.inr ⟨.notFound "MANIFEST_UNKNOWN", .notFound "MANIFEST_UNKNOWN", rfl, rfl⟩)
      rfl).2.1

/-- Claim C9: every tag write a run issues carries the original source image
string and the destination tag name — never the fetched digest — so the
registry re-resolves the source at write time.  Concretely: a creation run
that read digest `a` reports digest `a` in its success message, while the
same write applied to a registry in which the source tag has meanwhile moved
to digest `b` pins the destination to digest `b`, which differs from the
digest printed. -/
theorem write_uses_source_string_not_digest (d : Bool) (s t : String) (env : Env) :
    (∀ src tag : String, RegCall.tagWrite src tag ∈ (retagImage d s t env).calls →
        src = s ∧ tag = t) ∧
    ((retagImage false "example.com/app:build-1" "prod" envRace).stdout =
        [successMsg "prod" timeA hashA ""] ∧
     craneTag regMoved "example.com/app:build-1" "example.com/app:prod" =
        .ok [("example.com/app:build-1", imgB), ("example.com/app:prod", imgB)] ∧
     ¬ Hash.toStr hashB = Hash.toStr hashA) := by
  refine ⟨?_, rfl, ?_, by decide⟩
  · intro src tag hmem
    obtain ⟨pr, si, di, tr⟩ := env
    rcases pr with pe | r
    · simp [retagImage] at hmem
    · rcases si with se | simg
      · simp [retagImage] at hmem
      · rcases hgi : getImageDetails simg with _ | ⟨sd, sts⟩
        · simp [retagImage, hgi] at hmem
        · rcases di with e | dimg
          · cases d
            · rcases tr with _ | te <;> simp [retagImage, hgi] at hmem <;> exact hmem
            · simp [retagImage, hgi] at hmem
          · rcases hgd : getImageDetails dimg with _ | ⟨dd, dts⟩
            · simp [retagImage, hgi, hgd] at hmem
            · by_cases hde : sd.toStr = dd.toStr
              · simp [retagImage, hgi, hgd, hde] at hmem
              · cases d
                · rcases tr with _ | te <;> simp [retagImage, hgi, hgd, hde] at hmem <;>
                    exact hmem
                · simp [retagImage, hgi, hgd, hde] at hmem
  · rfl

/-- Witness for C9: the concrete creation run issues its write with the
original source string and the destination tag name. -/
theorem write_uses_source_string_not_digest_witness :
    "example.com/app:build-1" = "example.com/app:build-1" ∧ "prod" = "prod" :=
  (write_uses_source_string_not_digest false "example.com/app:build-1" "prod" envRace).1
    "example.com/app:build-1" "prod" (by decide)

theorem retagImage_noop (d : Bool) (s t : String) (env : Env) (r : ParsedRef)
    (srcImg destImg : Image) (scf dcf : ConfigFile)
    (hp : env.parseResult = .ok r) (hs : env.sourceImage = .ok srcImg)
    (hd : env.destImage = .ok destImg)
    (hsc : srcImg.config = some scf) (hdc : destImg.config = some dcf)
    (heq : srcImg.digest.toStr = destImg.digest.toStr) :
    retagImage d s t env =
      { stdout := [noopMsg t scf.created srcImg.digest], stderr := [],
        outcome := .exited 0,
        calls := [.fetch r.refString, .fetch (r.context ++ ":" ++ t)] } := by
  obtain ⟨pr, si, di, tr⟩ := env
  simp only at hp hs hd
  subst hp; subst hs; subst hd
  simp [retagImage, getImageDetails, hsc, hdc, heq]

/-- Claim C1: when the destination tag resolves to an image whose manifest
digest string equals the source's, the invocation performs zero registry
write calls, prints the [OK] no-op message, exits successfully — and
re-running the same invocation any number of times leaves the registry
unchanged and produces the identical no-op outcome every time. -/
theorem noop_idempotent_zero_writes
    (d : Bool) (s t : String) (r : ParsedRef) (reg : Registry)
    (srcImg destImg : Image) (scf dcf : ConfigFile)
    (hs : regFind reg r.refString = some srcImg)
    (hd : regFind reg (r.context ++ ":" ++ t) = some destImg)
    (hsc : srcImg.config = some scf) (hdc : destImg.config = some dcf)
    (heq : srcImg.digest.toStr = destImg.digest.toStr) :
    ∀ n : Nat,
      (registryStep d s t (.ok r))^[n] reg = reg ∧
      (runOnRegistry d s t (.ok r) ((registryStep d s t (.ok r))^[n] reg)).1 =
        { stdout := [noopMsg t scf.created srcImg.digest], stderr := [],
          outcome := .exited 0,
          calls := [.fetch r.refString, .fetch (r.context ++ ":" ++ t)] } ∧
      writeOccurs (runOnRegistry d s t (.ok r) ((registryStep d s t (.ok r))^[n] reg)).1 =
        false := by
  have henv1 : remoteImage reg r.refString = .ok srcImg := by simp [remoteImage, hs]
  have henv2 : remoteImage reg (r.context ++ ":" ++ t) = .ok destImg := by
    simp [remoteImage, hd]
  have hrun := retagImage_noop d s t
    { parseResult := .ok r, sourceImage := remoteImage reg r.refString,
      destImage := remoteImage reg (r.context ++ ":" ++ t),
      tagResult :=
        match craneTag reg r.refString (r.context ++ ":" ++ t) with
        | .ok _ => none
        | .error e => some e }
    r srcImg destImg scf dcf rfl henv1 henv2 hsc hdc heq
  have key : runOnRegistry d s t (.ok r) reg =
      ({ stdout := [noopMsg t scf.created srcImg.digest], stderr := [],
         outcome := .exited 0,
         calls := [.fetch r.refString, .fetch (r.context ++ ":" ++ t)] }, reg) := by
    unfold runOnRegistry
    simp only []
    rw [hrun]
    simp [writeOccurs, RegCall.isWrite]
  intro n
  have hfix : (registryStep d s t (.ok r))^[n] reg = reg :=
    Function.iterate_fixed (by simp [registryStep, key]) n
  refine ⟨hfix, ?_, ?_⟩
  · rw [hfix, key]
  · rw [hfix, key]
    simp [writeOccurs, RegCall.isWrite]

/-- Witness for C1: a concrete registry whose destination tag already points
at the source digest; three repeated invocations are each the same no-op. -/
theorem noop_idempotent_zero_writes_witness :
    (registryStep false "example.com/app:build-1" "prod" (.ok refApp))^[3] regNoop =
      regNoop ∧
    (runOnRegistry false "example.com/app:build-1" "prod" (.ok refApp)
        ((registryStep false "example.com/app:build-1" "prod" (.ok refApp))^[3]
          regNoop)).1 =
      { stdout := [noopMsg "prod" timeA hashA], stderr := [], outcome := .exited 0,
        calls := [.fetch "example.com/app:build-1", .fetch "example.com/app:prod"] } ∧
    writeOccurs (runOnRegistry false "example.com/app:build-1" "prod" (.ok refApp)
        ((registryStep false "example.com/app:build-1" "prod" (.ok refApp))^[3]
          regNoop)).1 = false :=
  noop_idempotent_zero_writes false "example.com/app:build-1" "prod" refApp regNoop
    imgA imgA2 { created := timeA } { created := timeB } rfl rfl rfl rfl rfl 3
